import Mathlib

/-!
Verification of the DALI binary-operator type-promotion and
operand-classification resolver, against the promotion rules documented in
docs/examples/general/expressions/expr_type_promotions.ipynb.
-/

namespace DALI

/-- The coarse numeric families of the scalar type domain.  `bool` is not a
separate family: the promotion documentation fixes it as the smallest
unsigned integer (`uint1`), so it is represented as `UNSIGNED_INT` of
width 1 (see `BOOL` below). -/
inductive Family where
  | SIGNED_INT
  | UNSIGNED_INT
  | FLOAT
deriving DecidableEq, Repr

/-- An element type: a family together with a bit width. -/
structure ScalarType where
  family : Family
  width : Nat
deriving DecidableEq, Repr

/-- The `bool` type: per the promotion documentation it is considered the
smallest unsigned integer type and treated as `uint1`. -/
def BOOL : ScalarType := ⟨Family.UNSIGNED_INT, 1⟩

/-- Well-formed scalar types: width 8, 16, 32 or 64, except `BOOL` which has
width 1. -/
def ScalarType.wf (t : ScalarType) : Prop :=
  t.width = 8 ∨ t.width = 16 ∨ t.width = 32 ∨ t.width = 64 ∨ t = BOOL

instance (t : ScalarType) : Decidable t.wf := by
  unfold ScalarType.wf; infer_instance

/-- The binary operator kinds of the expression system. -/
inductive OperatorKind where
  | ADD
  | SUB
  | MUL
  | TRUEDIV
  | FLOORDIV
  | BIT_OR
  | BIT_AND
  | BIT_XOR
deriving DecidableEq, Repr

/-- The bitwise operator class: `|`, `&`, `^`. -/
def OperatorKind.isBitwise : OperatorKind → Bool
  | .BIT_OR | .BIT_AND | .BIT_XOR => true
  | _ => false

/-- The arithmetic operator class: `+`, `-`, `*`, `//` (true division `/` is
its own class). -/
def OperatorKind.isArithmetic : OperatorKind → Bool
  | .ADD | .SUB | .MUL | .FLOORDIV => true
  | _ => false

/-- Modelled from the spec: the promotion-rule engine itself is not under
src/ (the repository material is the documentation notebook
expr_type_promotions.ipynb); this is the type-promotion table of that
notebook (cell-7), row by row: `T T → T`; `floatX T → floatX` for non-float
`T`; `floatX floatY → float(max(X,Y))`; `intX intY → int(max(X,Y))`;
`uintX uintY → uint(max(X,Y))`; `intX uintY → int2Y` if `X ≤ Y` else
`intX`, with `bool` treated as `uint1`. -/
def promoteTable (a b : ScalarType) : ScalarType :=
  match a.family, b.family with
  | Family.FLOAT, Family.FLOAT => ⟨Family.FLOAT, max a.width b.width⟩
  | Family.FLOAT, _ => ⟨Family.FLOAT, a.width⟩
  | _, Family.FLOAT => ⟨Family.FLOAT, b.width⟩
  | Family.SIGNED_INT, Family.SIGNED_INT => ⟨Family.SIGNED_INT, max a.width b.width⟩
  | Family.UNSIGNED_INT, Family.UNSIGNED_INT => ⟨Family.UNSIGNED_INT, max a.width b.width⟩
  | Family.SIGNED_INT, Family.UNSIGNED_INT =>
      if a.width ≤ b.width then ⟨Family.SIGNED_INT, 2 * b.width⟩
      else ⟨Family.SIGNED_INT, a.width⟩
  | Family.UNSIGNED_INT, Family.SIGNED_INT =>
      if b.width ≤ a.width then ⟨Family.SIGNED_INT, 2 * a.width⟩
      else ⟨Family.SIGNED_INT, b.width⟩

/-- Modelled from the spec: the promotion-rule engine implementation is not
under src/; this follows the rules documented in the notebook (cell-7):
bitwise operators restrict their inputs to integral types (bool included),
float operands fail; only multiplication `*` and the bitwise operations can
accept two `bool` inputs (two `bool` operands with any other operator fail);
true division `/` always returns `float32` for integer inputs and applies
the promotion table when at least one input is a floating point number; all
other operators apply the promotion table directly.  Failure (`none`)
models the single `IncompatibleTypes` error. -/
def resolve (a b : ScalarType) (op : OperatorKind) : Option ScalarType :=
  if op.isBitwise = true ∧ (a.family = Family.FLOAT ∨ b.family = Family.FLOAT) then
    none
  else if a = BOOL ∧ b = BOOL ∧ ¬(op = OperatorKind.MUL ∨ op.isBitwise = true) then
    none
  else if op = OperatorKind.TRUEDIV ∧ a.family ≠ Family.FLOAT ∧ b.family ≠ Family.FLOAT then
    some ⟨Family.FLOAT, 32⟩
  else
    some (promoteTable a b)

example : resolve ⟨Family.UNSIGNED_INT, 8⟩ ⟨Family.UNSIGNED_INT, 8⟩ OperatorKind.ADD
    = some ⟨Family.UNSIGNED_INT, 8⟩ := by decide

example : resolve ⟨Family.UNSIGNED_INT, 8⟩ ⟨Family.SIGNED_INT, 32⟩ OperatorKind.ADD
    = some ⟨Family.SIGNED_INT, 32⟩ := by decide

example : resolve ⟨Family.UNSIGNED_INT, 8⟩ ⟨Family.FLOAT, 32⟩ OperatorKind.ADD
    = some ⟨Family.FLOAT, 32⟩ := by decide

example : resolve ⟨Family.UNSIGNED_INT, 8⟩ ⟨Family.UNSIGNED_INT, 8⟩ OperatorKind.TRUEDIV
    = some ⟨Family.FLOAT, 32⟩ := by decide

example : resolve BOOL BOOL OperatorKind.ADD = none := by decide

example : resolve BOOL BOOL OperatorKind.MUL = some ⟨Family.UNSIGNED_INT, 1⟩ := by decide

example : resolve ⟨Family.FLOAT, 32⟩ ⟨Family.SIGNED_INT, 32⟩ OperatorKind.BIT_OR = none := by
  decide

example : resolve ⟨Family.SIGNED_INT, 8⟩ ⟨Family.UNSIGNED_INT, 8⟩ OperatorKind.ADD
    = some ⟨Family.SIGNED_INT, 16⟩ := by decide

example : resolve ⟨Family.SIGNED_INT, 32⟩ ⟨Family.UNSIGNED_INT, 8⟩ OperatorKind.ADD
    = some ⟨Family.SIGNED_INT, 32⟩ := by decide

/-- A constant operand: a raw Python `int` literal (with its value), a raw
Python `float` literal (value modelled as a rational), or a constant with
an explicitly chosen type (`nvidia.dali.types.Constant` with a
`DALIDataType` tag). -/
inductive ConstantOperand where
  | PY_INT (n : Int)
  | PY_FLOAT (q : ℚ)
  | EXPLICIT (t : ScalarType)
deriving DecidableEq

/-- Modelled from the spec: the constant classifier implementation is not
under src/; per the notebook (cell-13), Python `int` values are treated as
`int32` and `float` as `float32` in regard to type promotions, and a DALI
`Constant` with an explicit `DALIDataType` carries that type verbatim. -/
def classify : ConstantOperand → ScalarType
  | .PY_INT _ => ⟨Family.SIGNED_INT, 32⟩
  | .PY_FLOAT _ => ⟨Family.FLOAT, 32⟩
  | .EXPLICIT t => t

/-- Conversion of an integer value into an integer scalar type, C-style:
wrap-around modulo `2 ^ width`, re-centered for signed types. -/
def wrapTo (t : ScalarType) (v : Int) : Int :=
  match t.family with
  | Family.UNSIGNED_INT => v % (2 ^ t.width : Int)
  | Family.SIGNED_INT =>
      (v + 2 ^ (t.width - 1)) % (2 ^ t.width : Int) - 2 ^ (t.width - 1)
  | Family.FLOAT => v

/-- Conversion of a computed value into the resolved element type: identity
for float types, floor followed by modular wrap-around (`wrapTo`) for
integer types. -/
def convertTo (t : ScalarType) (q : ℚ) : ℚ :=
  match t.family with
  | Family.FLOAT => q
  | _ => ((wrapTo t ⌊q⌋ : Int) : ℚ)

/-- Modelled from the spec: the elementwise execution engine is out of the
resolver's scope and not under src/; this models the element computation
evidenced by the notebook's recorded outputs (cell-9, cell-12, cell-20):
the raw result is computed exactly (values as rationals), then converted
into the resolved element type `t` by `convertTo` (modular wrap-around for
integer types, e.g. `42 * 9 → 122` in `uint8`); floor division `//` floors
only when the resolved type is integral — with a floating resolved type it
computes true division (`42 // 9.0 → 4.67`); division by zero is a failure
of the engine, not of the resolver. -/
def evalElem (t : ScalarType) (op : OperatorKind) (a b : ℚ) : Option ℚ :=
  match op with
  | .ADD => some (convertTo t (a + b))
  | .SUB => some (convertTo t (a - b))
  | .MUL => some (convertTo t (a * b))
  | .TRUEDIV => if b = 0 then none else some (convertTo t (a / b))
  | .FLOORDIV =>
      if t.family = Family.FLOAT then
        if b = 0 then none else some (a / b)
      else
        if ⌊b⌋ = 0 then none else some (convertTo t ((Int.fdiv ⌊a⌋ ⌊b⌋ : Int) : ℚ))
  | .BIT_OR => some (convertTo t ((Int.lor ⌊a⌋ ⌊b⌋ : Int) : ℚ))
  | .BIT_AND => some (convertTo t ((Int.land ⌊a⌋ ⌊b⌋ : Int) : ℚ))
  | .BIT_XOR => some (convertTo t ((Int.xor ⌊a⌋ ⌊b⌋ : Int) : ℚ))

/-- The promotion table is symmetric in its two operands. -/
theorem promoteTable_comm (a b : ScalarType) : promoteTable a b = promoteTable b a := by
  obtain ⟨fa, wa⟩ := a
  obtain ⟨fb, wb⟩ := b
  cases fa <;> cases fb <;> simp only [promoteTable] <;>
    first
      | (split_ifs <;> simp [ScalarType.mk.injEq] <;> omega)
      | (simp [ScalarType.mk.injEq] <;> omega)

/-- The promotion table is idempotent: a type promoted with itself is
unchanged. -/
theorem promoteTable_self (a : ScalarType) : promoteTable a a = a := by
  obtain ⟨fa, wa⟩ := a
  cases fa <;> simp [promoteTable]

/-- C1: the claim's `int/int → {FLOAT,32}` and `floatX/floatY →
{FLOAT,max(X,Y)}` cases hold, but its `int/floatY → {FLOAT,max(32,Y)}`
formula fails: per the documented table the float operand's width wins, so
`{SIGNED_INT,32} / {FLOAT,16} → {FLOAT,16}`, not `{FLOAT,32}`; and two
`BOOL` operands are not an admissible integer pair for TRUEDIV. -/
theorem C1_truediv_counterexample :
    resolve ⟨Family.SIGNED_INT, 32⟩ ⟨Family.FLOAT, 16⟩ OperatorKind.TRUEDIV
      = some ⟨Family.FLOAT, 16⟩ ∧
    (⟨Family.FLOAT, 16⟩ : ScalarType) ≠ ⟨Family.FLOAT, max 32 16⟩ ∧
    resolve BOOL BOOL OperatorKind.TRUEDIV = none := by
  refine ⟨by decide, by decide, by decide⟩

/-- C1 (amended): for TRUEDIV, two integer-family operands that are not both
`BOOL` give `{FLOAT,32}`; an integer-family operand against `{FLOAT,Y}`
gives `{FLOAT,Y}` (the float width wins, not `max(32,Y)`); two float
operands `{FLOAT,X}`, `{FLOAT,Y}` give `{FLOAT,max(X,Y)}`; two `BOOL`
operands fail with `IncompatibleTypes`. -/
theorem C1_truediv_amended (a : ScalarType) (X Y : Nat)
    (ha : a.family ≠ Family.FLOAT) :
    (∀ b : ScalarType, b.family ≠ Family.FLOAT → ¬(a = BOOL ∧ b = BOOL) →
      resolve a b OperatorKind.TRUEDIV = some ⟨Family.FLOAT, 32⟩) ∧
    resolve a ⟨Family.FLOAT, Y⟩ OperatorKind.TRUEDIV = some ⟨Family.FLOAT, Y⟩ ∧
    resolve ⟨Family.FLOAT, X⟩ a OperatorKind.TRUEDIV = some ⟨Family.FLOAT, X⟩ ∧
    resolve ⟨Family.FLOAT, X⟩ ⟨Family.FLOAT, Y⟩ OperatorKind.TRUEDIV
      = some ⟨Family.FLOAT, max X Y⟩ ∧
    resolve BOOL BOOL OperatorKind.TRUEDIV = none := by
  obtain ⟨fa, wa⟩ := a
  refine ⟨?_, ?_, ?_, ?_, by decide⟩
  · intro b hb hbb
    obtain ⟨fb, wb⟩ := b
    simp only [resolve, OperatorKind.isBitwise]
    cases fa <;> cases fb <;> simp_all [BOOL, ScalarType.mk.injEq]
  · simp only [resolve, OperatorKind.isBitwise]
    cases fa <;> simp_all [BOOL, promoteTable, ScalarType.mk.injEq]
  · simp only [resolve, OperatorKind.isBitwise]
    cases fa <;> simp_all [BOOL, promoteTable, ScalarType.mk.injEq]
  · simp [resolve, OperatorKind.isBitwise, promoteTable, BOOL]

/-- C1 witness at a concrete instance: `a = {UNSIGNED_INT,8}`, `X = 64`,
`Y = 16`, integer partner `{SIGNED_INT,32}`. -/
theorem C1_truediv_amended_witness :
    resolve ⟨Family.UNSIGNED_INT, 8⟩ ⟨Family.SIGNED_INT, 32⟩ OperatorKind.TRUEDIV
      = some ⟨Family.FLOAT, 32⟩ ∧
    resolve ⟨Family.UNSIGNED_INT, 8⟩ ⟨Family.FLOAT, 16⟩ OperatorKind.TRUEDIV
      = some ⟨Family.FLOAT, 16⟩ := by
  have h := C1_truediv_amended ⟨Family.UNSIGNED_INT, 8⟩ 64 16 (by decide)
  exact ⟨h.1 ⟨Family.SIGNED_INT, 32⟩ (by decide) (by decide), h.2.1⟩

/-- C2: for every arithmetic or bitwise operator, a `SIGNED_INT` of width
`X` against an `UNSIGNED_INT` of width `Y` (in either order, `BOOL` being
unsigned of width 1) resolves to `{SIGNED_INT, 2*Y}` when `X ≤ Y` and
`{SIGNED_INT, X}` when `X > Y`; in particular
`resolve({SIGNED_INT,8},{UNSIGNED_INT,8},ADD) = {SIGNED_INT,16}` and
`resolve({SIGNED_INT,32},{UNSIGNED_INT,8},ADD) = {SIGNED_INT,32}`. -/
theorem C2_signed_unsigned_widening (X Y : Nat) (op : OperatorKind)
    (hop : op.isArithmetic = true ∨ op.isBitwise = true) :
    resolve ⟨Family.SIGNED_INT, X⟩ ⟨Family.UNSIGNED_INT, Y⟩ op
      = some (if X ≤ Y then ⟨Family.SIGNED_INT, 2 * Y⟩ else ⟨Family.SIGNED_INT, X⟩) ∧
    resolve ⟨Family.UNSIGNED_INT, Y⟩ ⟨Family.SIGNED_INT, X⟩ op
      = some (if X ≤ Y then ⟨Family.SIGNED_INT, 2 * Y⟩ else ⟨Family.SIGNED_INT, X⟩) ∧
    resolve ⟨Family.SIGNED_INT, 8⟩ ⟨Family.UNSIGNED_INT, 8⟩ OperatorKind.ADD
      = some ⟨Family.SIGNED_INT, 16⟩ ∧
    resolve ⟨Family.SIGNED_INT, 32⟩ ⟨Family.UNSIGNED_INT, 8⟩ OperatorKind.ADD
      = some ⟨Family.SIGNED_INT, 32⟩ := by
  refine ⟨?_, ?_, by decide, by decide⟩ <;>
    cases op <;> simp_all [resolve, promoteTable, BOOL, ScalarType.mk.injEq,
      OperatorKind.isArithmetic, OperatorKind.isBitwise]

/-- C2 witness at the concrete instance `X = 16`, `Y = 32`, `op = MUL`. -/
theorem C2_signed_unsigned_widening_witness :
    resolve ⟨Family.SIGNED_INT, 16⟩ ⟨Family.UNSIGNED_INT, 32⟩ OperatorKind.MUL
      = some (if 16 ≤ 32 then ⟨Family.SIGNED_INT, 2 * 32⟩ else ⟨Family.SIGNED_INT, 16⟩) :=
  (C2_signed_unsigned_widening 16 32 OperatorKind.MUL (by decide)).1

/-- C3: the claim that a `BOOL` operand is only permitted for MUL and the
bitwise operators fails: a single `BOOL` operand is fine with ADD —
`resolve(BOOL,{UNSIGNED_INT,8},ADD)` succeeds (bool is promoted as
`uint1`), only the two-`BOOL` combination is restricted. -/
theorem C3_bool_counterexample :
    resolve BOOL ⟨Family.UNSIGNED_INT, 8⟩ OperatorKind.ADD
      = some ⟨Family.UNSIGNED_INT, 8⟩ ∧
    resolve BOOL ⟨Family.UNSIGNED_INT, 8⟩ OperatorKind.ADD ≠ none := by
  refine ⟨by decide, by decide⟩

/-- C3 (amended): a pair of `BOOL` operands is permitted only when the
operator is MUL, BIT_OR, BIT_AND, or BIT_XOR — for every other operator,
if both operands are `BOOL`, resolve fails with `IncompatibleTypes` (a
single `BOOL` operand is promoted as `uint1` and does not by itself fail);
`resolve(BOOL,BOOL,ADD)` fails while `resolve(BOOL,BOOL,MUL)` is
`{UNSIGNED_INT,1}`. -/
theorem C3_bool_restriction_amended (op : OperatorKind)
    (h : ¬(op = OperatorKind.MUL ∨ op.isBitwise = true)) :
    resolve BOOL BOOL op = none ∧
    resolve BOOL BOOL OperatorKind.ADD = none ∧
    resolve BOOL BOOL OperatorKind.MUL = some ⟨Family.UNSIGNED_INT, 1⟩ ∧
    resolve BOOL BOOL OperatorKind.BIT_OR = some ⟨Family.UNSIGNED_INT, 1⟩ ∧
    resolve BOOL BOOL OperatorKind.BIT_AND = some ⟨Family.UNSIGNED_INT, 1⟩ ∧
    resolve BOOL BOOL OperatorKind.BIT_XOR = some ⟨Family.UNSIGNED_INT, 1⟩ ∧
    resolve BOOL ⟨Family.UNSIGNED_INT, 8⟩ OperatorKind.ADD
      = some ⟨Family.UNSIGNED_INT, 8⟩ := by
  refine ⟨?_, by decide, by decide, by decide, by decide, by decide, by decide⟩
  cases op <;> simp_all [resolve, OperatorKind.isBitwise]

/-- C3 witness at the concrete instance `op = SUB`. -/
theorem C3_bool_restriction_amended_witness :
    resolve BOOL BOOL OperatorKind.SUB = none :=
  (C3_bool_restriction_amended OperatorKind.SUB (by decide)).1

/-- C4: resolve is commutative — for every pair of scalar types and every
operator, the two orders either both fail or both give the same type. -/
theorem C4_resolve_comm (a b : ScalarType) (op : OperatorKind) :
    resolve a b op = resolve b a op := by
  unfold resolve
  rw [promoteTable_comm]
  by_cases h1 : a.family = Family.FLOAT <;>
  by_cases h2 : b.family = Family.FLOAT <;>
  by_cases h3 : a = BOOL <;>
  by_cases h4 : b = BOOL <;>
    simp [h1, h2, h3, h4, and_comm, or_comm]

/-- C5: the claim fails for the bitwise operators (which are non-division
operators): `{FLOAT,32} | {UNSIGNED_INT,8}` does not give `{FLOAT,32}` —
it fails with `IncompatibleTypes`. -/
theorem C5_float_wins_counterexample :
    resolve ⟨Family.FLOAT, 32⟩ ⟨Family.UNSIGNED_INT, 8⟩ OperatorKind.BIT_OR
      ≠ some ⟨Family.FLOAT, 32⟩ ∧
    resolve ⟨Family.FLOAT, 32⟩ ⟨Family.UNSIGNED_INT, 8⟩ OperatorKind.BIT_OR = none := by
  refine ⟨by decide, by decide⟩

/-- C5 (amended): for every ARITHMETIC operator (ADD, SUB, MUL, FLOORDIV —
not TRUEDIV and not the bitwise operators, which reject floats), one
`{FLOAT,X}` operand against a non-float operand of any width gives
`{FLOAT,X}` in either order: the float operand's width wins. -/
theorem C5_float_wins_amended (X : Nat) (b : ScalarType) (op : OperatorKind)
    (hop : op.isArithmetic = true) (hb : b.family ≠ Family.FLOAT) :
    resolve ⟨Family.FLOAT, X⟩ b op = some ⟨Family.FLOAT, X⟩ ∧
    resolve b ⟨Family.FLOAT, X⟩ op = some ⟨Family.FLOAT, X⟩ := by
  obtain ⟨fb, wb⟩ := b
  cases op <;> cases fb <;>
    simp_all [resolve, promoteTable, BOOL, ScalarType.mk.injEq,
      OperatorKind.isArithmetic, OperatorKind.isBitwise]

/-- C5 witness at the concrete instance `X = 64`, `b = {SIGNED_INT,8}`,
`op = SUB`. -/
theorem C5_float_wins_amended_witness :
    resolve ⟨Family.FLOAT, 64⟩ ⟨Family.SIGNED_INT, 8⟩ OperatorKind.SUB
      = some ⟨Family.FLOAT, 64⟩ :=
  (C5_float_wins_amended 64 ⟨Family.SIGNED_INT, 8⟩ OperatorKind.SUB
    (by decide) (by decide)).1

/-- C6: classify is total and deterministic (it is a Lean function): a
`PY_INT` constant classifies as `{SIGNED_INT,32}` regardless of its value,
a `PY_FLOAT` constant as `{FLOAT,32}`, and an `EXPLICIT` constant as its
explicit type verbatim — in particular a `UINT8`-tagged constant as
`{UNSIGNED_INT,8}`. -/
theorem C6_classify_constants (n : Int) (q : ℚ) (t : ScalarType) :
    classify (ConstantOperand.PY_INT n) = ⟨Family.SIGNED_INT, 32⟩ ∧
    classify (ConstantOperand.PY_FLOAT q) = ⟨Family.FLOAT, 32⟩ ∧
    classify (ConstantOperand.EXPLICIT t) = t ∧
    classify (ConstantOperand.EXPLICIT ⟨Family.UNSIGNED_INT, 8⟩)
      = ⟨Family.UNSIGNED_INT, 8⟩ :=
  ⟨rfl, rfl, rfl, rfl⟩

/-- C7: for every bitwise operator, two integer-family operands resolve
exactly as the corresponding arithmetic promotion does (here compared with
MUL, the arithmetic operator valid on all integer pairs) and never fail,
while a float operand on either side fails with `IncompatibleTypes`; in
particular `resolve({FLOAT,32},{SIGNED_INT,32},BIT_OR)` fails. -/
theorem C7_bitwise_integral (a b : ScalarType) (op : OperatorKind)
    (hop : op.isBitwise = true) :
    (a.family ≠ Family.FLOAT → b.family ≠ Family.FLOAT →
      resolve a b op = resolve a b OperatorKind.MUL ∧
      (resolve a b op).isSome = true) ∧
    (a.family = Family.FLOAT ∨ b.family = Family.FLOAT → resolve a b op = none) ∧
    resolve ⟨Family.FLOAT, 32⟩ ⟨Family.SIGNED_INT, 32⟩ OperatorKind.BIT_OR = none := by
  refine ⟨?_, ?_, by decide⟩
  · intro ha hb
    cases op <;> simp_all [resolve, OperatorKind.isBitwise]
  · intro hf
    cases op <;> simp_all [resolve, OperatorKind.isBitwise]

/-- C7 witness at the concrete instance `a = {UNSIGNED_INT,8}`,
`b = {SIGNED_INT,16}`, `op = BIT_XOR`. -/
theorem C7_bitwise_integral_witness :
    resolve ⟨Family.UNSIGNED_INT, 8⟩ ⟨Family.SIGNED_INT, 16⟩ OperatorKind.BIT_XOR
      = resolve ⟨Family.UNSIGNED_INT, 8⟩ ⟨Family.SIGNED_INT, 16⟩ OperatorKind.MUL :=
  ((C7_bitwise_integral ⟨Family.UNSIGNED_INT, 8⟩ ⟨Family.SIGNED_INT, 16⟩
    OperatorKind.BIT_XOR (by decide)).1 (by decide) (by decide)).1

/-- C8: the identity claim fails for TRUEDIV on an integer type:
`resolve({UNSIGNED_INT,8},{UNSIGNED_INT,8},TRUEDIV)` is valid and gives
`{FLOAT,32}`, which is not `{UNSIGNED_INT,8}`. -/
theorem C8_identity_counterexample :
    resolve ⟨Family.UNSIGNED_INT, 8⟩ ⟨Family.UNSIGNED_INT, 8⟩ OperatorKind.TRUEDIV
      = some ⟨Family.FLOAT, 32⟩ ∧
    (⟨Family.FLOAT, 32⟩ : ScalarType) ≠ ⟨Family.UNSIGNED_INT, 8⟩ := by
  refine ⟨by decide, by decide⟩

/-- C8 (amended): for every scalar type `a` and operator `op`, if
`resolve(a,a,op)` is valid then it equals `a` — except for TRUEDIV on a
non-float `a`, where division forces `{FLOAT,32}`; for TRUEDIV the identity
holds when `a` is a float type. -/
theorem C8_identity_amended (a : ScalarType) (op : OperatorKind) (r : ScalarType)
    (h : resolve a a op = some r)
    (hdiv : op = OperatorKind.TRUEDIV → a.family = Family.FLOAT) :
    r = a := by
  have hself : promoteTable a a = a := promoteTable_self a
  unfold resolve at h
  split_ifs at h with h1 h2 h3
  · exact absurd (hdiv h3.1) h3.2.1
  · rw [hself] at h
    exact (Option.some.injEq _ _ ▸ h).symm

/-- C8 witness at the concrete instance `a = {SIGNED_INT,64}`, `op = MUL`. -/
theorem C8_identity_amended_witness :
    resolve ⟨Family.SIGNED_INT, 64⟩ ⟨Family.SIGNED_INT, 64⟩ OperatorKind.MUL
      = some ⟨Family.SIGNED_INT, 64⟩ ∧
    (⟨Family.SIGNED_INT, 64⟩ : ScalarType) = ⟨Family.SIGNED_INT, 64⟩ :=
  ⟨by decide, C8_identity_amended ⟨Family.SIGNED_INT, 64⟩ OperatorKind.MUL
    ⟨Family.SIGNED_INT, 64⟩ (by decide) (by decide)⟩

/-- C9: with resolved type `{UNSIGNED_INT,8}`, multiplication wraps modulo
`2^8`: `42 * 9` evaluates to `122 = 378 mod 256` and `42 * 10` to
`164 = 420 mod 256`, with no widening, saturation, or error (the evaluator
returns `some` and the results are the modular residues). -/
theorem C9_uint8_wraparound :
    resolve ⟨Family.UNSIGNED_INT, 8⟩ ⟨Family.UNSIGNED_INT, 8⟩ OperatorKind.MUL
      = some ⟨Family.UNSIGNED_INT, 8⟩ ∧
    evalElem ⟨Family.UNSIGNED_INT, 8⟩ OperatorKind.MUL 42 9 = some 122 ∧
    evalElem ⟨Family.UNSIGNED_INT, 8⟩ OperatorKind.MUL 42 10 = some 164 ∧
    (122 : Int) = (42 * 9) % 2 ^ 8 ∧
    (164 : Int) = (42 * 10) % 2 ^ 8 ∧
    (0 : Int) ≤ 122 ∧ (122 : Int) < 2 ^ 8 ∧ (0 : Int) ≤ 164 ∧ (164 : Int) < 2 ^ 8 := by
  refine ⟨by decide, ?_, ?_, by decide, by decide, by decide, by decide, by decide, by decide⟩ <;>
    norm_num [evalElem, convertTo, wrapTo]

/-- C10: with a float operand, FLOORDIV resolves per the ordinary promotion
rules (`{UNSIGNED_INT,8} // {FLOAT,32} → {FLOAT,32}`) but its value is the
true-division result `42 // 9 = 14/3 ≈ 4.67`, equal to TRUEDIV's value and
not the floored `4`; with two integer operands it produces the floored
value `4` in the resolved integer type. -/
theorem C10_floordiv_values :
    resolve ⟨Family.UNSIGNED_INT, 8⟩ ⟨Family.FLOAT, 32⟩ OperatorKind.FLOORDIV
      = some ⟨Family.FLOAT, 32⟩ ∧
    evalElem ⟨Family.FLOAT, 32⟩ OperatorKind.FLOORDIV 42 9 = some (14 / 3) ∧
    evalElem ⟨Family.FLOAT, 32⟩ OperatorKind.FLOORDIV 42 9
      = evalElem ⟨Family.FLOAT, 32⟩ OperatorKind.TRUEDIV 42 9 ∧
    (14 / 3 : ℚ) ≠ 4 ∧
    resolve ⟨Family.UNSIGNED_INT, 8⟩ ⟨Family.UNSIGNED_INT, 8⟩ OperatorKind.FLOORDIV
      = some ⟨Family.UNSIGNED_INT, 8⟩ ∧
    evalElem ⟨Family.UNSIGNED_INT, 8⟩ OperatorKind.FLOORDIV 42 9 = some 4 := by
  refine ⟨by decide, ?_, ?_, by norm_num, by decide, ?_⟩
  · norm_num [evalElem, convertTo, wrapTo]
  · norm_num [evalElem, convertTo, wrapTo]
  · norm_num [evalElem, convertTo, wrapTo, Int.fdiv]
    decide

end DALI
